import Mathlib

/-!
Verification of the UberClone ride-hailing backend's journey workflow.

This file shallowly embeds the journey service
(`backend/src/modules/journey/journey.service.js`), the journey model
methods (`journey.model.js`), the request-validation schemas
(`journey.validation.js`) and the Kafka publisher (`config/kafka.js`).

Database lookups (`findById`) are modelled by passing the lookup result
as an `Option` argument; `document.save()` is modelled by returning the
saved document state (plus, for `createJourney`, the mongoose
enum-validation that `save` performs).  Timestamps (`new Date()`) are
modelled by an explicit `now : Nat` argument.  JavaScript numbers that
only flow through comparisons and storage are modelled as `ℚ`/`ℤ`;
coordinates fed into the trigonometric haversine computation are cast
into `ℝ`.
-/

namespace UberClone

/-- Journey status enumeration of `journey.model.js` (`status` enum). -/
inductive JStatus where
  | REQUESTED
  | ACCEPTED
  | ARRIVED
  | STARTED
  | COMPLETED
  | CANCELLED
deriving DecidableEq, Repr

/-- Vehicle type enumeration of `journey.model.js` (`vehicleType` enum). -/
inductive VehicleType where
  | CAR
  | BIKE
  | AUTO
  | E_RICKSHAW
  | ELECTRIC_SCOOTER
deriving DecidableEq, Repr

/-- Payment status enumeration of `journey.model.js` (`paymentStatus` enum). -/
inductive PaymentStatus where
  | PENDING
  | COMPLETED
  | FAILED
deriving DecidableEq, Repr

/-- The `cancelledBy` enumeration of `journey.model.js`. -/
inductive CancelParty where
  | RIDER
  | DRIVER
deriving DecidableEq, Repr

/-- String rendering of a journey status, used in the template-string
error message of `updateJourneyStatus`. -/
def statusToString : JStatus → String
  | .REQUESTED => "REQUESTED"
  | .ACCEPTED => "ACCEPTED"
  | .ARRIVED => "ARRIVED"
  | .STARTED => "STARTED"
  | .COMPLETED => "COMPLETED"
  | .CANCELLED => "CANCELLED"

/-- GeoJSON point as stored by `journey.model.js`: `[longitude, latitude]`. -/
structure GeoPoint where
  coordinates : ℚ × ℚ
deriving DecidableEq, Repr

/-- Pickup/dropoff sub-record of `journey.model.js`: address plus location. -/
structure LocationInfo where
  address : String
  location : GeoPoint
deriving DecidableEq, Repr

/-- The Journey ("Ride") document of `journey.model.js`.  Database ids are
modelled as `Nat`; nullable fields as `Option`. -/
structure Journey where
  id : Nat
  riderId : Nat
  driverId : Option Nat
  status : JStatus
  vehicleType : VehicleType
  pickup : LocationInfo
  dropoff : LocationInfo
  estimatedFare : ℤ
  actualFare : Option ℚ
  distance : Option ℚ
  duration : Option ℚ
  paymentMethod : String
  paymentStatus : PaymentStatus
  requestedAt : Nat
  acceptedAt : Option Nat
  arrivedAt : Option Nat
  startedAt : Option Nat
  completedAt : Option Nat
  cancelledAt : Option Nat
  cancellationReason : Option String
  cancelledBy : Option CancelParty
deriving DecidableEq, Repr

/-- The `status` sub-record of the driver document (`driver.status.isOnline`,
`driver.status.isVerified`). -/
structure DriverFlags where
  isOnline : Bool
  isVerified : Bool
deriving DecidableEq, Repr

/-- The `vehicleInfo` sub-record of the driver document. -/
structure VehicleInfo where
  vehicleType : VehicleType
deriving DecidableEq, Repr

/-- The driver document, restricted to the fields the journey service reads. -/
structure Driver where
  id : Nat
  status : DriverFlags
  vehicleInfo : VehicleInfo
deriving DecidableEq, Repr

/-- The user document, restricted to the fields the journey service reads. -/
structure User where
  id : Nat
  name : String
  email : String
  phone : String
deriving DecidableEq, Repr

/-- Method `canBeCancelled` of `journey.model.js`:
`['REQUESTED', 'ACCEPTED', 'ARRIVED'].includes(this.status)`. -/
def canBeCancelled (journey : Journey) : Bool :=
  [JStatus.REQUESTED, JStatus.ACCEPTED, JStatus.ARRIVED].contains journey.status

/-- The `validTransitions` table of `journey.model.js`
(method `isValidStatusTransition`). -/
def validTransitions : JStatus → List JStatus
  | .REQUESTED => [.ACCEPTED, .CANCELLED]
  | .ACCEPTED => [.ARRIVED, .CANCELLED]
  | .ARRIVED => [.STARTED, .CANCELLED]
  | .STARTED => [.COMPLETED, .CANCELLED]
  | .COMPLETED => []
  | .CANCELLED => []

/-- Method `isValidStatusTransition` of `journey.model.js`:
`validTransitions[this.status]?.includes(newStatus) || false`. -/
def isValidStatusTransition (current newStatus : JStatus) : Bool :=
  (validTransitions current).contains newStatus

/-- Error taxonomy of the specification (§7).  The journey service throws
plain `Error` objects carrying a message string; `errorKind` classifies
each message of the service into the specification's error kinds. -/
inductive ErrKind where
  | NotFound
  | Forbidden
  | PreconditionFailed
  | InvalidTransition
deriving DecidableEq, Repr

/-- Classification of every throw message of `journey.service.js` into the
specification's error kinds (§7): NotFound for missing entities, Forbidden
for actors that are not party to the journey, PreconditionFailed for
violated business rules, InvalidTransition for forbidden status moves. -/
def errorKind (message : String) : Option ErrKind :=
  if message = "Rider not found" ∨ message = "Driver not found" ∨
      message = "Journey not found" then some .NotFound
  else if message = "You are not assigned to this journey" ∨
      message = "You are not authorized to cancel this journey" ∨
      message = "You are not authorized to view this journey" ∨
      message = "You are not authorized to confirm payment for this journey" ∨
      message = "You are not authorized to generate payment for this journey" then
    some .Forbidden
  else if message = "Driver must be online to accept journeys" ∨
      message = "Driver must be verified to accept journeys" ∨
      message = "Journey is no longer available" ∨
      message = "Vehicle type does not match journey request" ∨
      message = "Journey cannot be cancelled in current status" ∨
      message = "Payment has already been completed" then
    some .PreconditionFailed
  else if "Cannot transition from ".toList.isPrefixOf message.toList ∨
      message = "Journey must be started before completion" then
    some .InvalidTransition
  else none

/-- `acceptJourney(journeyId, driverId)` of `journey.service.js`.  The two
`findById` lookups are passed in as `Option` arguments; `now` models
`new Date()`.  Mirrors the source's check order: driver existence, online,
verified, journey existence, status REQUESTED, vehicle-type match; on
success assigns the driver, sets status ACCEPTED and `acceptedAt`. -/
def acceptJourney (driver? : Option Driver) (journey? : Option Journey)
    (driverId : Nat) (now : Nat) : Except String Journey :=
  match driver? with
  | none => .error "Driver not found"
  | some driver =>
    if driver.status.isOnline = false then
      .error "Driver must be online to accept journeys"
    else if driver.status.isVerified = false then
      .error "Driver must be verified to accept journeys"
    else
      match journey? with
      | none => .error "Journey not found"
      | some journey =>
        if journey.status ≠ .REQUESTED then
          .error "Journey is no longer available"
        else if journey.vehicleType ≠ driver.vehicleInfo.vehicleType then
          .error "Vehicle type does not match journey request"
        else
          .ok { journey with
                driverId := some driverId
                status := .ACCEPTED
                acceptedAt := some now }

/-- `updateJourneyStatus(journeyId, driverId, newStatus)` of
`journey.service.js`: ownership check
(`!journey.driverId || journey.driverId !== driverId`), transition check via
`isValidStatusTransition`, then sets the status and the timestamp matching
the new status. -/
def updateJourneyStatus (journey? : Option Journey) (driverId : Nat)
    (newStatus : JStatus) (now : Nat) : Except String Journey :=
  match journey? with
  | none => .error "Journey not found"
  | some journey =>
    if journey.driverId ≠ some driverId then
      .error "You are not assigned to this journey"
    else if isValidStatusTransition journey.status newStatus = false then
      .error ("Cannot transition from " ++ statusToString journey.status ++
        " to " ++ statusToString newStatus)
    else
      let j := { journey with status := newStatus }
      if newStatus = .ARRIVED then
        .ok { j with arrivedAt := some now }
      else if newStatus = .STARTED then
        .ok { j with startedAt := some now }
      else
        .ok j

/-- Completion payload `{ actualFare, distance, duration }` of
`completeJourney`. -/
structure CompletionData where
  actualFare : ℚ
  distance : ℚ
  duration : ℚ
deriving DecidableEq, Repr

/-- `completeJourney(journeyId, driverId, completionData)` of
`journey.service.js`: ownership check, requires status STARTED, then sets
status COMPLETED, `completedAt`, the three measured fields, and
`paymentStatus = 'COMPLETED'` (the driver-stats `$inc` acts on the driver
collection and is outside the journey document). -/
def completeJourney (journey? : Option Journey) (driverId : Nat)
    (completionData : CompletionData) (now : Nat) : Except String Journey :=
  match journey? with
  | none => .error "Journey not found"
  | some journey =>
    if journey.driverId ≠ some driverId then
      .error "You are not assigned to this journey"
    else if journey.status ≠ .STARTED then
      .error "Journey must be started before completion"
    else
      .ok { journey with
            status := .COMPLETED
            completedAt := some now
            actualFare := some completionData.actualFare
            distance := some completionData.distance
            duration := some completionData.duration
            paymentStatus := .COMPLETED }

/-- `cancelJourney(journeyId, userId, reason, cancelledBy)` of
`journey.service.js`: party check (`isRider`/`isDriver`), `canBeCancelled`
check, then sets status CANCELLED, `cancelledAt`, the reason and
`cancelledBy`. -/
def cancelJourney (journey? : Option Journey) (userId : Nat) (reason : String)
    (cancelledBy : CancelParty) (now : Nat) : Except String Journey :=
  match journey? with
  | none => .error "Journey not found"
  | some journey =>
    let isRider := journey.riderId = userId
    let isDriver := journey.driverId = some userId
    if ¬ isRider ∧ ¬ isDriver then
      .error "You are not authorized to cancel this journey"
    else if canBeCancelled journey = false then
      .error "Journey cannot be cancelled in current status"
    else
      .ok { journey with
            status := .CANCELLED
            cancelledAt := some now
            cancellationReason := some reason
            cancelledBy := some cancelledBy }

/-- Settlement amount `journey.actualFare || journey.estimatedFare` of
`confirmPayment` (and `generatePaymentQR`): JavaScript `||` falls through
to `estimatedFare` when `actualFare` is `null` or `0`. -/
def settlementAmount (journey : Journey) : ℚ :=
  match journey.actualFare with
  | some fare => if fare = 0 then (journey.estimatedFare : ℚ) else fare
  | none => (journey.estimatedFare : ℚ)

/-- Result object returned by `confirmPayment`; `amount`/`paymentMethod`
are absent (`none`) in the already-paid branch. -/
structure PaymentConfirmation where
  alreadyPaid : Bool
  journeyId : Nat
  amount : Option ℚ
  paymentMethod : Option String
deriving DecidableEq, Repr

/-- `confirmPayment(journeyId, riderId)` of `journey.service.js`: rider
authorization, requires status COMPLETED; if `paymentStatus` is already
COMPLETED returns `{alreadyPaid: true, journeyId}` without saving; else
sets `paymentStatus = 'COMPLETED'`, saves, and returns the settlement
amount.  The saved journey state is returned alongside the result. -/
def confirmPayment (journey? : Option Journey) (riderId : Nat) :
    Except String (PaymentConfirmation × Journey) :=
  match journey? with
  | none => .error "Journey not found"
  | some journey =>
    if journey.riderId ≠ riderId then
      .error "You are not authorized to confirm payment for this journey"
    else if journey.status ≠ .COMPLETED then
      .error "Can only confirm payment for completed journeys"
    else if journey.paymentStatus = .COMPLETED then
      .ok ({ alreadyPaid := true, journeyId := journey.id,
             amount := none, paymentMethod := none }, journey)
    else
      let saved := { journey with paymentStatus := PaymentStatus.COMPLETED }
      .ok ({ alreadyPaid := false, journeyId := journey.id,
             amount := some (settlementAmount journey),
             paymentMethod := some journey.paymentMethod }, saved)

/-- `toRad(degrees)` of `journey.service.js`: `degrees * (Math.PI / 180)`. -/
noncomputable def toRad (degrees : ℝ) : ℝ :=
  degrees * (Real.pi / 180)

/-- JavaScript `Math.atan2(y, x)`, which on (non-NaN) real inputs is the
argument of the complex number `x + y·i` (range `(-π, π]`, `atan2 0 0 = 0`). -/
noncomputable def atan2 (y x : ℝ) : ℝ :=
  Complex.arg { re := x, im := y }

/-- `calculateDistance(coords1, coords2)` of `journey.service.js`: the
haversine great-circle distance in kilometres with Earth radius `R = 6371`.
Coordinates are `[longitude, latitude]` pairs in degrees. -/
noncomputable def calculateDistance (coords1 coords2 : ℚ × ℚ) : ℝ :=
  let lon1 : ℝ := (coords1.1 : ℝ)
  let lat1 : ℝ := (coords1.2 : ℝ)
  let lon2 : ℝ := (coords2.1 : ℝ)
  let lat2 : ℝ := (coords2.2 : ℝ)
  let R : ℝ := 6371
  let dLat := toRad (lat2 - lat1)
  let dLon := toRad (lon2 - lon1)
  let a := Real.sin (dLat / 2) * Real.sin (dLat / 2) +
    Real.cos (toRad lat1) * Real.cos (toRad lat2) *
      Real.sin (dLon / 2) * Real.sin (dLon / 2)
  let c := 2 * atan2 (Real.sqrt a) (Real.sqrt (1 - a))
  R * c

/-- The `pricing` table of `calculateEstimatedFare`:
base fare and per-kilometre rate for each vehicle type. -/
def pricing : VehicleType → ℤ × ℤ
  | .CAR => (50, 12)
  | .BIKE => (20, 6)
  | .AUTO => (30, 8)
  | .E_RICKSHAW => (25, 7)
  | .ELECTRIC_SCOOTER => (15, 5)

/-- `calculateEstimatedFare(pickupCoords, dropoffCoords, vehicleType)` of
`journey.service.js`: `Math.round(base + distance * perKm)`.  Mathlib's
`round`, like JavaScript's `Math.round`, is `⌊x + 1/2⌋`. -/
noncomputable def calculateEstimatedFare (pickupCoords dropoffCoords : ℚ × ℚ)
    (vehicleType : VehicleType) : ℤ :=
  let distance := calculateDistance pickupCoords dropoffCoords
  let base := (pricing vehicleType).1
  let perKm := (pricing vehicleType).2
  let fare := (base : ℝ) + distance * (perKm : ℝ)
  round fare

/-- Input payload of `createJourney` (after upstream request validation). -/
structure JourneyData where
  pickupAddress : String
  pickupCoordinates : ℚ × ℚ
  dropoffAddress : String
  dropoffCoordinates : ℚ × ℚ
  vehicleType : VehicleType
  paymentMethod : String
deriving DecidableEq, Repr

/-- The `paymentMethod` enum of `journey.model.js`. -/
def journeyModelPaymentMethods : List String :=
  ["CASH", "CARD", "UPI", "WALLET"]

/-- The `paymentMethod` enum accepted by `createJourneySchema` of
`journey.validation.js`. -/
def createJourneySchemaPaymentMethods : List String :=
  ["CASH", "DIGITAL_WALLET", "DEBIT_CARD", "CREDIT_CARD", "UPI"]

/-- Mongoose schema validation performed by `journey.save()` on a newly
constructed document.  The typed embedding makes every other constraint of
`journey.model.js` (required fields, status/vehicle enums, non-negative
fares) hold by construction; the `paymentMethod` enum is the one check a
`createJourney` input can still violate. -/
def rideSave (journey : Journey) : Except String Journey :=
  if journeyModelPaymentMethods.contains journey.paymentMethod then
    .ok journey
  else
    .error "Ride validation failed: paymentMethod is not a valid enum value"

/-- `createJourney(riderId, journeyData)` of `journey.service.js`: rider
lookup, fare estimation, construction of a `Ride` document with status
REQUESTED and default field values, then `save()` (which runs the mongoose
enum validation).  `newId` models the database-assigned `_id`. -/
noncomputable def createJourney (rider? : Option User) (riderId : Nat)
    (journeyData : JourneyData) (newId now : Nat) : Except String Journey :=
  match rider? with
  | none => .error "Rider not found"
  | some _rider =>
    let estimatedFare := calculateEstimatedFare journeyData.pickupCoordinates
      journeyData.dropoffCoordinates journeyData.vehicleType
    let journey : Journey :=
      { id := newId
        riderId := riderId
        driverId := none
        status := .REQUESTED
        vehicleType := journeyData.vehicleType
        pickup := { address := journeyData.pickupAddress,
                    location := { coordinates := journeyData.pickupCoordinates } }
        dropoff := { address := journeyData.dropoffAddress,
                     location := { coordinates := journeyData.dropoffCoordinates } }
        estimatedFare := estimatedFare
        actualFare := none
        distance := none
        duration := none
        paymentMethod := journeyData.paymentMethod
        paymentStatus := .PENDING
        requestedAt := now
        acceptedAt := none
        arrivedAt := none
        startedAt := none
        completedAt := none
        cancelledAt := none
        cancellationReason := none
        cancelledBy := none }
    rideSave journey

/-- The `status` enum of `updateJourneyStatusSchema` in
`journey.validation.js`: only ARRIVED and STARTED are accepted at the
status-update entry point. -/
def updateStatusSchemaAllows (s : JStatus) : Bool :=
  s == .ARRIVED || s == .STARTED

/-- The status-update entry point: request validation
(`updateJourneyStatusSchema`) followed by the service call
`updateJourneyStatus`. -/
def updateStatusEndpoint (journey? : Option Journey) (driverId : Nat)
    (newStatus : JStatus) (now : Nat) : Except String Journey :=
  if updateStatusSchemaAllows newStatus = false then
    .error "Invalid status. Only ARRIVED or STARTED allowed"
  else
    updateJourneyStatus journey? driverId newStatus now

/-- Outcome of a `producer.send` call: success, or a thrown error that
`publishMessage` catches. -/
inductive BrokerOutcome where
  | sent
  | failed (message : String)
deriving DecidableEq, Repr

/-- The result object returned by `publishMessage` in `config/kafka.js`. -/
structure PublishResult where
  success : Bool
  disabled : Bool := false
  error : Option String := none
deriving DecidableEq, Repr

/-- A Kafka record handed to `producer.send` (topic, key, serialized value,
timestamp). -/
structure KafkaRecord where
  topic : String
  key : Option String
  value : String
  timestamp : Nat
deriving DecidableEq, Repr

/-- `publishMessage(topic, message, key)` of `config/kafka.js`.  The broker
environment is passed in: `kafkaEnabled` models `env.KAFKA_ENABLED`, and
`producer?` models the outcome of `getProducer()` (`none` when unavailable)
together with the broker's response to a send.  The function returns the
result object plus the list of records actually handed to the broker; every
throw inside the `try` block is caught and turned into
`{success: false, error}`. -/
def publishMessage (kafkaEnabled : Bool)
    (producer? : Option (KafkaRecord → BrokerOutcome))
    (topic : String) (message : String) (key : Option String) (now : Nat) :
    PublishResult × List KafkaRecord :=
  if kafkaEnabled = false then
    ({ success := true, disabled := true }, [])
  else
    match producer? with
    | none => ({ success := false, error := some "Producer not available" }, [])
    | some send =>
      let kafkaMessage : KafkaRecord :=
        { topic := topic, key := key, value := message, timestamp := now }
      match send kafkaMessage with
      | .sent => ({ success := true }, [kafkaMessage])
      | .failed e => ({ success := false, error := some e }, [kafkaMessage])

/-- The double-accept race of `acceptJourney` (specification §5/§9): two
drivers' accept calls interleaved so that both `Ride.findById` reads happen
while the journey is still in the stored state `db0`, before either
`journey.save()`.  Each `save()` writes the full modified document back by
id unconditionally (the mongoose schema enables no optimistic concurrency
check), so the second write is not conditioned on the status the first
write left behind.  Returns both call results and the final stored state. -/
def raceBothReadBeforeWrite (db0 : Journey) (d1 d2 : Driver) (now1 now2 : Nat) :
    Except String Journey × Except String Journey × Journey :=
  let snapshot1 := db0
  let snapshot2 := db0
  let r1 := acceptJourney (some d1) (some snapshot1) d1.id now1
  let db1 := match r1 with | .ok saved => saved | .error _ => db0
  let r2 := acceptJourney (some d2) (some snapshot2) d2.id now2
  let db2 := match r2 with | .ok saved => saved | .error _ => db1
  (r1, r2, db2)

/-- Serialized execution of two accept calls: the second call's read happens
after the first call's write, so its snapshot is the first call's saved
state. -/
def serializedAccepts (db0 : Journey) (d1 d2 : Driver) (now1 now2 : Nat) :
    Except String Journey × Except String Journey × Journey :=
  let r1 := acceptJourney (some d1) (some db0) d1.id now1
  let db1 := match r1 with | .ok saved => saved | .error _ => db0
  let r2 := acceptJourney (some d2) (some db1) d2.id now2
  let db2 := match r2 with | .ok saved => saved | .error _ => db1
  (r1, r2, db2)

/-! ### Sample fixtures used by concrete evaluations and witnesses -/

/-- A freshly created journey: rider 10, CAR, status REQUESTED. -/
def sampleJourney : Journey :=
  { id := 1
    riderId := 10
    driverId := none
    status := .REQUESTED
    vehicleType := .CAR
    pickup := { address := "Mumbai Central Station",
                location := { coordinates := (72.8777, 19.0760) } }
    dropoff := { address := "Bandra West Linking Road",
                 location := { coordinates := (72.8258, 19.0596) } }
    estimatedFare := 112
    actualFare := none
    distance := none
    duration := none
    paymentMethod := "CASH"
    paymentStatus := .PENDING
    requestedAt := 0
    acceptedAt := none
    arrivedAt := none
    startedAt := none
    completedAt := none
    cancelledAt := none
    cancellationReason := none
    cancelledBy := none }

/-- An online, verified CAR driver. -/
def sampleDriver : Driver :=
  { id := 5, status := { isOnline := true, isVerified := true },
    vehicleInfo := { vehicleType := .CAR } }

/-- A second online, verified CAR driver. -/
def sampleDriver2 : Driver :=
  { id := 6, status := { isOnline := true, isVerified := true },
    vehicleInfo := { vehicleType := .CAR } }

/-- An offline (but verified) CAR driver. -/
def offlineDriver : Driver :=
  { id := 7, status := { isOnline := false, isVerified := true },
    vehicleInfo := { vehicleType := .CAR } }

/-- `sampleJourney` after acceptance by driver 5 at time 1. -/
def sampleAccepted : Journey :=
  { sampleJourney with driverId := some 5, status := .ACCEPTED, acceptedAt := some 1 }

/-- `sampleJourney` brought to STARTED by driver 5. -/
def startedJourney : Journey :=
  { sampleJourney with
      driverId := some 5
      status := .STARTED
      acceptedAt := some 1
      arrivedAt := some 2
      startedAt := some 3 }

/-- A completed journey whose payment is still pending. -/
def completedUnpaidJourney : Journey :=
  { startedJourney with
      status := .COMPLETED
      completedAt := some 4
      actualFare := some 120
      distance := some 5
      duration := some 20 }

/-- A completed journey whose payment has been confirmed. -/
def completedPaidJourney : Journey :=
  { completedUnpaidJourney with paymentStatus := .COMPLETED }

/-! ### Helper lemmas -/

/-- An `Except` value is an error or a success. -/
theorem except_cases {α β : Type} (e : Except α β) :
    (∃ msg, e = .error msg) ∨ (∃ val, e = .ok val) := by
  cases e with
  | error msg => exact Or.inl ⟨msg, rfl⟩
  | ok val => exact Or.inr ⟨val, rfl⟩

/-- A successful `acceptJourney` starts from REQUESTED and lands in ACCEPTED. -/
theorem acceptJourney_ok_inv {d : Driver} {j j' : Journey} {did now : Nat}
    (h : acceptJourney (some d) (some j) did now = .ok j') :
    j.status = .REQUESTED ∧ j'.status = .ACCEPTED := by
  by_cases ho : d.status.isOnline = false
  · simp [acceptJourney, ho] at h
  · by_cases hv : d.status.isVerified = false
    · simp [acceptJourney, ho, hv] at h
    · by_cases hs : j.status = .REQUESTED
      · by_cases hveh : j.vehicleType = d.vehicleInfo.vehicleType
        · simp [acceptJourney, ho, hv, hs, hveh] at h
          subst h
          exact ⟨hs, rfl⟩
        · simp [acceptJourney, ho, hv, hs, hveh] at h
      · simp [acceptJourney, ho, hv, hs] at h

/-- A successful `updateJourneyStatus` passes the ownership check, the
transition-table check, and lands in the requested status. -/
theorem updateJourneyStatus_ok_inv {j j' : Journey} {did : Nat} {ns : JStatus}
    {now : Nat} (h : updateJourneyStatus (some j) did ns now = .ok j') :
    j.driverId = some did ∧ isValidStatusTransition j.status ns = true ∧
      j'.status = ns := by
  by_cases hd : j.driverId = some did
  · by_cases ht : isValidStatusTransition j.status ns = true
    · by_cases ha : ns = .ARRIVED
      · subst ha
        simp [updateJourneyStatus, hd, ht] at h
        subst h
        exact ⟨hd, ht, rfl⟩
      · by_cases hst : ns = .STARTED
        · subst hst
          simp [updateJourneyStatus, hd, ht, ha] at h
          subst h
          exact ⟨hd, ht, rfl⟩
        · simp [updateJourneyStatus, hd, ht, ha, hst] at h
          subst h
          exact ⟨hd, ht, rfl⟩
    · simp [updateJourneyStatus, hd, ht] at h
  · simp [updateJourneyStatus, hd] at h

/-- A successful `completeJourney` starts from STARTED and lands in COMPLETED. -/
theorem completeJourney_ok_inv {j j' : Journey} {did : Nat}
    {cd : CompletionData} {now : Nat}
    (h : completeJourney (some j) did cd now = .ok j') :
    j.driverId = some did ∧ j.status = .STARTED ∧ j'.status = .COMPLETED := by
  by_cases hd : j.driverId = some did
  · by_cases hs : j.status = .STARTED
    · simp [completeJourney, hd, hs] at h
      subst h
      exact ⟨hd, hs, rfl⟩
    · simp [completeJourney, hd, hs] at h
  · simp [completeJourney, hd] at h

/-- A successful `cancelJourney` passes the `canBeCancelled` check and lands
in CANCELLED. -/
theorem cancelJourney_ok_inv {j j' : Journey} {uid : Nat} {reason : String}
    {cb : CancelParty} {now : Nat}
    (h : cancelJourney (some j) uid reason cb now = .ok j') :
    canBeCancelled j = true ∧ j'.status = .CANCELLED := by
  by_cases hr : j.riderId = uid
  · by_cases hc : canBeCancelled j = true
    · simp [cancelJourney, hr, hc] at h
      subst h
      exact ⟨hc, rfl⟩
    · simp [cancelJourney, hr, hc] at h
  · by_cases hd : j.driverId = some uid
    · by_cases hc : canBeCancelled j = true
      · simp [cancelJourney, hr, hd, hc] at h
        subst h
        exact ⟨hc, rfl⟩
      · simp [cancelJourney, hr, hd, hc] at h
    · simp [cancelJourney, hr, hd] at h

/-! ### Claim theorems -/

/-- C1: for every journey and every operation of the Journey Workflow Engine
(`acceptJourney`, `updateJourneyStatus`, `completeJourney`, `cancelJourney`),
a successful call changes the status only along the transition table
REQUESTED→{ACCEPTED,CANCELLED}, ACCEPTED→{ARRIVED,CANCELLED},
ARRIVED→{STARTED,CANCELLED}, STARTED→{COMPLETED,CANCELLED}, and every
operation fails on a journey whose status is COMPLETED or CANCELLED. -/
theorem journey_status_machine (j j' : Journey) (d : Driver) (did uid : Nat)
    (ns : JStatus) (cd : CompletionData) (reason : String) (cb : CancelParty)
    (now : Nat) :
    (acceptJourney (some d) (some j) did now = .ok j' →
       isValidStatusTransition j.status j'.status = true)
  ∧ (updateJourneyStatus (some j) did ns now = .ok j' →
       isValidStatusTransition j.status j'.status = true)
  ∧ (completeJourney (some j) did cd now = .ok j' →
       isValidStatusTransition j.status j'.status = true)
  ∧ (cancelJourney (some j) uid reason cb now = .ok j' →
       isValidStatusTransition j.status j'.status = true)
  ∧ (j.status = .COMPLETED ∨ j.status = .CANCELLED →
       (∃ e, acceptJourney (some d) (some j) did now = .error e)
     ∧ (∃ e, updateJourneyStatus (some j) did ns now = .error e)
     ∧ (∃ e, completeJourney (some j) did cd now = .error e)
     ∧ (∃ e, cancelJourney (some j) uid reason cb now = .error e)) := by
  refine ⟨?_, ?_, ?_, ?_, ?_⟩
  · intro h
    obtain ⟨hreq, hacc⟩ := acceptJourney_ok_inv h
    rw [hreq, hacc]
    decide
  · intro h
    obtain ⟨-, ht, hns⟩ := updateJourneyStatus_ok_inv h
    rw [hns]
    exact ht
  · intro h
    obtain ⟨-, hst, hcomp⟩ := completeJourney_ok_inv h
    rw [hst, hcomp]
    decide
  · intro h
    obtain ⟨hc, hcanc⟩ := cancelJourney_ok_inv h
    rw [hcanc]
    revert hc
    unfold canBeCancelled isValidStatusTransition validTransitions
    cases j.status <;> decide
  · intro hterm
    refine ⟨?_, ?_, ?_, ?_⟩
    · rcases except_cases (acceptJourney (some d) (some j) did now) with he | ⟨v, hv⟩
      · exact he
      · obtain ⟨hreq, -⟩ := acceptJourney_ok_inv hv
        rcases hterm with ht | ht <;> rw [ht] at hreq <;> exact absurd hreq (by decide)
    · rcases except_cases (updateJourneyStatus (some j) did ns now) with he | ⟨v, hv⟩
      · exact he
      · obtain ⟨-, htr, -⟩ := updateJourneyStatus_ok_inv hv
        rcases hterm with ht | ht <;> rw [ht] at htr <;>
          exact absurd htr (by simp [isValidStatusTransition, validTransitions])
    · rcases except_cases (completeJourney (some j) did cd now) with he | ⟨v, hv⟩
      · exact he
      · obtain ⟨-, hst, -⟩ := completeJourney_ok_inv hv
        rcases hterm with ht | ht <;> rw [ht] at hst <;> exact absurd hst (by decide)
    · rcases except_cases (cancelJourney (some j) uid reason cb now) with he | ⟨v, hv⟩
      · exact he
      · obtain ⟨hc, -⟩ := cancelJourney_ok_inv hv
        rcases hterm with ht | ht <;>
          rw [canBeCancelled, ht] at hc <;> exact absurd hc (by decide)

/-- Witness for C1: the theorem applied at a concrete accepted journey and a
concrete terminal (COMPLETED, paid) journey. -/
theorem journey_status_machine_witness :
    isValidStatusTransition sampleJourney.status sampleAccepted.status = true
  ∧ (∃ e, completeJourney (some completedPaidJourney) 5
       { actualFare := 1, distance := 1, duration := 1 } 9 = .error e) := by
  constructor
  · exact (journey_status_machine sampleJourney sampleAccepted sampleDriver 5 10
      .ARRIVED { actualFare := 1, distance := 1, duration := 1 } "late" .RIDER 1).1
      (by rfl)
  · exact ((journey_status_machine completedPaidJourney completedPaidJourney
      sampleDriver 5 10 .ARRIVED { actualFare := 1, distance := 1, duration := 1 }
      "late" .RIDER 9).2.2.2.2 (Or.inl rfl)).2.2.1

/-- C2: `acceptJourney` fails with NotFound when the driver or journey is
missing, and with PreconditionFailed when the driver is offline, unverified,
the journey is not REQUESTED, or the vehicle types differ — each violation
independently sufficient; when all preconditions hold it assigns the driver,
sets status ACCEPTED and `acceptedAt`. -/
theorem acceptJourney_spec (d : Driver) (j : Journey) (journey? : Option Journey)
    (did now : Nat) :
    (acceptJourney none journey? did now = .error "Driver not found"
       ∧ errorKind "Driver not found" = some .NotFound)
  ∧ (d.status.isOnline = false →
       acceptJourney (some d) journey? did now =
         .error "Driver must be online to accept journeys")
  ∧ (d.status.isOnline = true → d.status.isVerified = false →
       acceptJourney (some d) journey? did now =
         .error "Driver must be verified to accept journeys")
  ∧ (d.status.isOnline = true → d.status.isVerified = true →
       acceptJourney (some d) none did now = .error "Journey not found"
       ∧ errorKind "Journey not found" = some .NotFound)
  ∧ (d.status.isOnline = true → d.status.isVerified = true →
       j.status ≠ .REQUESTED →
       acceptJourney (some d) (some j) did now =
         .error "Journey is no longer available")
  ∧ (d.status.isOnline = true → d.status.isVerified = true →
       j.status = .REQUESTED → j.vehicleType ≠ d.vehicleInfo.vehicleType →
       acceptJourney (some d) (some j) did now =
         .error "Vehicle type does not match journey request")
  ∧ ((d.status.isOnline = false ∨ d.status.isVerified = false ∨
        j.status ≠ .REQUESTED ∨ j.vehicleType ≠ d.vehicleInfo.vehicleType) →
       ∃ e, acceptJourney (some d) (some j) did now = .error e
          ∧ errorKind e = some .PreconditionFailed)
  ∧ (d.status.isOnline = true → d.status.isVerified = true →
       j.status = .REQUESTED → j.vehicleType = d.vehicleInfo.vehicleType →
       acceptJourney (some d) (some j) did now =
         .ok { j with driverId := some did, status := .ACCEPTED, acceptedAt := some now }) := by
  refine ⟨⟨rfl, rfl⟩, ?_, ?_, ?_, ?_, ?_, ?_, ?_⟩
  · intro ho
    simp [acceptJourney, ho]
  · intro ho hv
    simp [acceptJourney, ho, hv]
  · intro ho hv
    exact ⟨by simp [acceptJourney, ho, hv], rfl⟩
  · intro ho hv hs
    simp [acceptJourney, ho, hv, hs]
  · intro ho hv hs hveh
    simp [acceptJourney, ho, hv, hs, hveh]
  · intro hviol
    cases ho : d.status.isOnline with
    | false =>
      exact ⟨"Driver must be online to accept journeys",
        by simp [acceptJourney, ho], by rfl⟩
    | true =>
      cases hv : d.status.isVerified with
      | false =>
        exact ⟨"Driver must be verified to accept journeys",
          by simp [acceptJourney, ho, hv], by rfl⟩
      | true =>
        by_cases hs : j.status = .REQUESTED
        · have hveh : j.vehicleType ≠ d.vehicleInfo.vehicleType := by
            rcases hviol with h | h | h | h
            · rw [ho] at h; exact absurd h (by decide)
            · rw [hv] at h; exact absurd h (by decide)
            · exact absurd hs h
            · exact h
          exact ⟨"Vehicle type does not match journey request",
            by simp [acceptJourney, ho, hv, hs, hveh], by rfl⟩
        · exact ⟨"Journey is no longer available",
            by simp [acceptJourney, ho, hv, hs], by rfl⟩
  · intro ho hv hs hveh
    simp [acceptJourney, ho, hv, hs, hveh]

/-- Witness for C2: the offline-driver precondition failure and the success
case at concrete inputs. -/
theorem acceptJourney_spec_witness :
    acceptJourney (some offlineDriver) (some sampleJourney) 7 1 =
      .error "Driver must be online to accept journeys"
  ∧ acceptJourney (some sampleDriver) (some sampleJourney) 5 1 =
      .ok { sampleJourney with driverId := some 5, status := .ACCEPTED, acceptedAt := some 1 } := by
  constructor
  · exact (acceptJourney_spec offlineDriver sampleJourney (some sampleJourney)
      7 1).2.1 rfl
  · exact (acceptJourney_spec sampleDriver sampleJourney (some sampleJourney)
      5 1).2.2.2.2.2.2.2 rfl rfl rfl rfl

/-- C3: evaluation of `completeJourney` on a STARTED journey with matching
driver and payment still pending.  The code sets status COMPLETED,
`completedAt`, and the three measured fields — but it also sets
`paymentStatus` to COMPLETED, where the claim says `paymentStatus` is left
unchanged at PENDING (payment confirmation being a separate step). -/
theorem completeJourney_paymentStatus_eval :
    startedJourney.status = .STARTED
  ∧ startedJourney.driverId = some 5
  ∧ startedJourney.paymentStatus = .PENDING
  ∧ completeJourney (some startedJourney) 5
      { actualFare := 120, distance := 5, duration := 20 } 4 =
      .ok { startedJourney with
              status := .COMPLETED
              completedAt := some 4
              actualFare := some 120
              distance := some 5
              duration := some 20
              paymentStatus := .COMPLETED } := by
  exact ⟨rfl, rfl, rfl, rfl⟩

/-- C4: `confirmPayment` is idempotent: on a COMPLETED journey already paid it
returns `alreadyPaid = true` without mutation; on a COMPLETED journey not yet
paid it sets `paymentStatus` to COMPLETED and returns the settlement amount;
any second call after a successful call returns `alreadyPaid = true` with no
state change; on a journey that is not COMPLETED it fails. -/
theorem confirmPayment_idempotent (j : Journey) (rid : Nat) :
    (j.riderId = rid → j.status = .COMPLETED → j.paymentStatus = .COMPLETED →
       confirmPayment (some j) rid =
         .ok ({ alreadyPaid := true, journeyId := j.id, amount := none,
                paymentMethod := none }, j))
  ∧ (j.riderId = rid → j.status = .COMPLETED → j.paymentStatus ≠ .COMPLETED →
       confirmPayment (some j) rid =
         .ok ({ alreadyPaid := false, journeyId := j.id,
                amount := some (settlementAmount j),
                paymentMethod := some j.paymentMethod },
              { j with paymentStatus := .COMPLETED }))
  ∧ (∀ res j1, confirmPayment (some j) rid = .ok (res, j1) →
       confirmPayment (some j1) rid =
         .ok ({ alreadyPaid := true, journeyId := j1.id, amount := none,
                paymentMethod := none }, j1))
  ∧ (j.riderId = rid → j.status ≠ .COMPLETED →
       confirmPayment (some j) rid =
         .error "Can only confirm payment for completed journeys") := by
  refine ⟨?_, ?_, ?_, ?_⟩
  · intro h1 h2 h3
    simp [confirmPayment, h1, h2, h3]
  · intro h1 h2 h3
    simp [confirmPayment, h1, h2, h3]
  · intro res j1 h
    by_cases h1 : j.riderId = rid
    · by_cases h2 : j.status = .COMPLETED
      · by_cases h3 : j.paymentStatus = .COMPLETED
        · simp [confirmPayment, h1, h2, h3] at h
          obtain ⟨-, hj⟩ := h
          subst hj
          simp [confirmPayment, h1, h2, h3]
        · simp [confirmPayment, h1, h2, h3] at h
          obtain ⟨-, hj⟩ := h
          subst hj
          simp [confirmPayment, h1, h2]
      · simp [confirmPayment, h1, h2] at h
    · simp [confirmPayment, h1] at h
  · intro h1 h2
    simp [confirmPayment, h1, h2]

/-- Witness for C4: confirming payment twice in succession on a concrete
completed journey whose payment is pending — the second call reports
`alreadyPaid` and leaves the state unchanged. -/
theorem confirmPayment_idempotent_witness :
    confirmPayment (some completedUnpaidJourney) 10 =
      .ok ({ alreadyPaid := false, journeyId := completedUnpaidJourney.id,
             amount := some (settlementAmount completedUnpaidJourney),
             paymentMethod := some completedUnpaidJourney.paymentMethod },
           { completedUnpaidJourney with paymentStatus := .COMPLETED })
  ∧ confirmPayment (some completedPaidJourney) 10 =
      .ok ({ alreadyPaid := true, journeyId := completedPaidJourney.id,
             amount := none, paymentMethod := none }, completedPaidJourney) := by
  constructor
  · exact (confirmPayment_idempotent completedUnpaidJourney 10).2.1 rfl rfl
      (by decide)
  · exact (confirmPayment_idempotent completedPaidJourney 10).1 rfl rfl rfl

/-- C6: `cancelJourney` fails with Forbidden unless the caller is the
journey's rider or driver, fails with PreconditionFailed unless the status
is REQUESTED, ACCEPTED or ARRIVED (so cancelling a COMPLETED, CANCELLED or
STARTED journey fails), and on success sets status CANCELLED, `cancelledAt`,
the reason and `cancelledBy`. -/
theorem cancelJourney_spec (j : Journey) (uid : Nat) (reason : String)
    (cb : CancelParty) (now : Nat) :
    (j.riderId ≠ uid → j.driverId ≠ some uid →
       cancelJourney (some j) uid reason cb now =
         .error "You are not authorized to cancel this journey"
       ∧ errorKind "You are not authorized to cancel this journey" =
           some .Forbidden)
  ∧ ((j.riderId = uid ∨ j.driverId = some uid) →
       (j.status = .COMPLETED ∨ j.status = .CANCELLED ∨ j.status = .STARTED) →
       cancelJourney (some j) uid reason cb now =
         .error "Journey cannot be cancelled in current status"
       ∧ errorKind "Journey cannot be cancelled in current status" =
           some .PreconditionFailed)
  ∧ ((j.riderId = uid ∨ j.driverId = some uid) →
       (j.status = .REQUESTED ∨ j.status = .ACCEPTED ∨ j.status = .ARRIVED) →
       cancelJourney (some j) uid reason cb now =
         .ok { j with
                 status := .CANCELLED
                 cancelledAt := some now
                 cancellationReason := some reason
                 cancelledBy := some cb }) := by
  refine ⟨?_, ?_, ?_⟩
  · intro hr hd
    exact ⟨by simp [cancelJourney, hr, hd], by rfl⟩
  · intro hparty hstat
    have hc : canBeCancelled j = false := by
      rcases hstat with h | h | h <;> rw [canBeCancelled, h] <;> decide
    rcases hparty with hp | hp
    · exact ⟨by simp [cancelJourney, hp, hc], by rfl⟩
    · exact ⟨by simp [cancelJourney, hp, hc], by rfl⟩
  · intro hparty hstat
    have hc : canBeCancelled j = true := by
      rcases hstat with h | h | h <;> rw [canBeCancelled, h] <;> decide
    rcases hparty with hp | hp
    · simp [cancelJourney, hp, hc]
    · simp [cancelJourney, hp, hc]

/-- Witness for C6: a non-party caller is rejected, and the journey's rider
cancels a REQUESTED journey successfully, at concrete inputs. -/
theorem cancelJourney_spec_witness :
    cancelJourney (some sampleJourney) 99 "changed my mind" .RIDER 2 =
      .error "You are not authorized to cancel this journey"
  ∧ cancelJourney (some sampleJourney) 10 "changed my mind" .RIDER 2 =
      .ok { sampleJourney with
              status := .CANCELLED
              cancelledAt := some 2
              cancellationReason := some "changed my mind"
              cancelledBy := some .RIDER } := by
  constructor
  · exact ((cancelJourney_spec sampleJourney 99 "changed my mind" .RIDER 2).1
      (by decide) (by decide)).1
  · exact (cancelJourney_spec sampleJourney 10 "changed my mind" .RIDER 2).2.2
      (Or.inl rfl) (Or.inl rfl)

set_option maxRecDepth 8192 in
/-- Every `updateJourneyStatus` transition-failure message classifies as
InvalidTransition. -/
theorem errorKind_transition_message (a b : JStatus) :
    errorKind ("Cannot transition from " ++ statusToString a ++ " to " ++
      statusToString b) = some .InvalidTransition := by
  cases a <;> cases b <;> decide

/-- C7: with the broker disabled, `publishMessage` returns
`{success: true, disabled: true}` and hands nothing to the broker; in every
configuration the function is total (never throws) and a failure is reported
only through `{success: false, error}`. -/
theorem publishMessage_spec (producer? : Option (KafkaRecord → BrokerOutcome))
    (topic message : String) (key : Option String) (now : Nat) :
    (publishMessage false producer? topic message key now =
       ({ success := true, disabled := true, error := none }, []))
  ∧ (∀ enabled,
       (publishMessage enabled producer? topic message key now).1.success = false →
       ∃ e, (publishMessage enabled producer? topic message key now).1.error = some e) := by
  constructor
  · rfl
  · intro enabled h
    cases enabled with
    | false => simp [publishMessage] at h
    | true =>
      cases producer? with
      | none => exact ⟨"Producer not available", rfl⟩
      | some send =>
        cases hs : send { topic := topic, key := key, value := message, timestamp := now } with
        | sent => simp [publishMessage, hs] at h
        | failed e => exact ⟨e, by simp [publishMessage, hs]⟩

/-- Witness for C7: publishing with the broker disabled at concrete inputs,
and a publish failure (unavailable producer) surfaced via the error field. -/
theorem publishMessage_spec_witness :
    publishMessage false none "journey-requested" "journey 1" none 0 =
      ({ success := true, disabled := true, error := none }, [])
  ∧ (∃ e, (publishMessage true none "journey-requested" "journey 1" none 0).1.error
        = some e) := by
  constructor
  · exact (publishMessage_spec none "journey-requested" "journey 1" none 0).1
  · exact (publishMessage_spec none "journey-requested" "journey 1" none 0).2
      true rfl

/-- C8: the status-update entry point accepts only ARRIVED and STARTED, the
service fails with Forbidden when the caller is not the assigned driver (or
no driver is assigned), fails with InvalidTransition when the transition
table forbids the move (in particular REQUESTED→STARTED), and on success
sets the status and the matching timestamp. -/
theorem updateJourneyStatus_spec (j : Journey) (did : Nat) (ns : JStatus)
    (now : Nat) :
    (updateStatusSchemaAllows ns = false →
       updateStatusEndpoint (some j) did ns now =
         .error "Invalid status. Only ARRIVED or STARTED allowed")
  ∧ (updateStatusSchemaAllows ns = true →
       updateStatusEndpoint (some j) did ns now =
         updateJourneyStatus (some j) did ns now)
  ∧ (j.driverId ≠ some did →
       updateJourneyStatus (some j) did ns now =
         .error "You are not assigned to this journey"
       ∧ errorKind "You are not assigned to this journey" = some .Forbidden)
  ∧ (j.driverId = some did → isValidStatusTransition j.status ns = false →
       updateJourneyStatus (some j) did ns now =
         .error ("Cannot transition from " ++ statusToString j.status ++
           " to " ++ statusToString ns)
       ∧ errorKind ("Cannot transition from " ++ statusToString j.status ++
           " to " ++ statusToString ns) = some .InvalidTransition)
  ∧ (j.status = .REQUESTED →
       ∃ e, updateStatusEndpoint (some j) did .STARTED now = .error e)
  ∧ (j.driverId = some did → isValidStatusTransition j.status ns = true →
       updateJourneyStatus (some j) did ns now =
         .ok (if ns = .ARRIVED then
                { j with status := ns, arrivedAt := some now }
              else if ns = .STARTED then
                { j with status := ns, startedAt := some now }
              else
                { j with status := ns })) := by
  refine ⟨?_, ?_, ?_, ?_, ?_, ?_⟩
  · intro h
    simp [updateStatusEndpoint, h]
  · intro h
    simp [updateStatusEndpoint, h]
  · intro hd
    refine ⟨by simp [updateJourneyStatus, hd], by rfl⟩
  · intro hd ht
    exact ⟨by simp [updateJourneyStatus, hd, ht],
      errorKind_transition_message j.status ns⟩
  · intro hs
    by_cases hd : j.driverId = some did
    · exact ⟨"Cannot transition from " ++ statusToString .REQUESTED ++ " to " ++
          statusToString .STARTED,
        by simp [updateStatusEndpoint, updateStatusSchemaAllows,
          updateJourneyStatus, hd, hs, isValidStatusTransition,
          validTransitions]⟩
    · exact ⟨"You are not assigned to this journey",
        by simp [updateStatusEndpoint, updateStatusSchemaAllows,
          updateJourneyStatus, hd]⟩
  · intro hd ht
    by_cases ha : ns = .ARRIVED
    · subst ha
      simp [updateJourneyStatus, hd, ht]
    · by_cases hst : ns = .STARTED
      · subst hst
        simp [updateJourneyStatus, hd, ht, ha]
      · simp [updateJourneyStatus, hd, ht, ha, hst]

/-- Witness for C8: schema rejection of COMPLETED, the REQUESTED→STARTED
rejection, and a successful ACCEPTED→ARRIVED move at concrete inputs. -/
theorem updateJourneyStatus_spec_witness :
    updateStatusEndpoint (some sampleAccepted) 5 .COMPLETED 2 =
      .error "Invalid status. Only ARRIVED or STARTED allowed"
  ∧ (∃ e, updateStatusEndpoint (some sampleJourney) 5 .STARTED 2 = .error e)
  ∧ updateJourneyStatus (some sampleAccepted) 5 .ARRIVED 2 =
      .ok (if JStatus.ARRIVED = .ARRIVED then
             { sampleAccepted with status := .ARRIVED, arrivedAt := some 2 }
           else if JStatus.ARRIVED = .STARTED then
             { sampleAccepted with status := .ARRIVED, startedAt := some 2 }
           else
             { sampleAccepted with status := .ARRIVED }) := by
  refine ⟨?_, ?_, ?_⟩
  · exact (updateJourneyStatus_spec sampleAccepted 5 .COMPLETED 2).1 rfl
  · exact (updateJourneyStatus_spec sampleJourney 5 .STARTED 2).2.2.2.2.1 rfl
  · exact (updateJourneyStatus_spec sampleAccepted 5 .ARRIVED 2).2.2.2.2.2
      rfl rfl

/-- C9: evaluation of the double-accept interleaving at concrete inputs.
Two distinct eligible drivers read the same REQUESTED journey before either
write: both calls succeed (the second write overwrites the first), so it is
false that exactly one succeeds while the other fails with
PreconditionFailed; the accept path behaves as a read-then-write pair, not
as an atomic compare-and-swap.  Under serialized execution the second accept
does fail with "Journey is no longer available". -/
theorem acceptJourney_double_accept_race :
    (raceBothReadBeforeWrite sampleJourney sampleDriver sampleDriver2 1 2).1 =
      .ok { sampleJourney with driverId := some 5, status := .ACCEPTED, acceptedAt := some 1 }
  ∧ (raceBothReadBeforeWrite sampleJourney sampleDriver sampleDriver2 1 2).2.1 =
      .ok { sampleJourney with driverId := some 6, status := .ACCEPTED, acceptedAt := some 2 }
  ∧ (raceBothReadBeforeWrite sampleJourney sampleDriver sampleDriver2 1 2).2.2.driverId =
      some 6
  ∧ (serializedAccepts sampleJourney sampleDriver sampleDriver2 1 2).2.1 =
      .error "Journey is no longer available" := by
  exact ⟨rfl, rfl, rfl, rfl⟩

/-- C10: the create-journey request schema accepts the payment methods
DIGITAL_WALLET, DEBIT_CARD and CREDIT_CARD, the Journey model's enum does
not, and `createJourney` with any of those payment methods fails at
persistence, creating no journey. -/
theorem paymentMethod_schema_model_mismatch (u : User) (rid : Nat)
    (d : JourneyData) (nid now : Nat) :
    (createJourneySchemaPaymentMethods.contains "DIGITAL_WALLET" = true
   ∧ createJourneySchemaPaymentMethods.contains "DEBIT_CARD" = true
   ∧ createJourneySchemaPaymentMethods.contains "CREDIT_CARD" = true)
  ∧ (journeyModelPaymentMethods.contains "DIGITAL_WALLET" = false
   ∧ journeyModelPaymentMethods.contains "DEBIT_CARD" = false
   ∧ journeyModelPaymentMethods.contains "CREDIT_CARD" = false)
  ∧ (∃ e, createJourney (some u) rid { d with paymentMethod := "DIGITAL_WALLET" }
       nid now = .error e)
  ∧ (∃ e, createJourney (some u) rid { d with paymentMethod := "DEBIT_CARD" }
       nid now = .error e)
  ∧ (∃ e, createJourney (some u) rid { d with paymentMethod := "CREDIT_CARD" }
       nid now = .error e) := by
  refine ⟨⟨by decide, by decide, by decide⟩, ⟨by decide, by decide, by decide⟩,
    ?_, ?_, ?_⟩
  · exact ⟨"Ride validation failed: paymentMethod is not a valid enum value",
      by simp [createJourney, rideSave, journeyModelPaymentMethods]⟩
  · exact ⟨"Ride validation failed: paymentMethod is not a valid enum value",
      by simp [createJourney, rideSave, journeyModelPaymentMethods]⟩
  · exact ⟨"Ride validation failed: paymentMethod is not a valid enum value",
      by simp [createJourney, rideSave, journeyModelPaymentMethods]⟩

/-- `Math.atan2(0, 1) = 0`. -/
theorem atan2_zero_one : atan2 0 1 = 0 := by
  unfold atan2
  have h : ({ re := 1, im := 0 } : ℂ) = 1 := by
    apply Complex.ext <;> simp
  rw [h, Complex.arg_one]

/-- The haversine distance from any point to itself is zero. -/
theorem calculateDistance_self (p : ℚ × ℚ) : calculateDistance p p = 0 := by
  unfold calculateDistance toRad
  simp [atan2_zero_one]

/-- With identical pickup and dropoff, the estimated fare is the vehicle's
base fare. -/
theorem calculateEstimatedFare_samePoint (p : ℚ × ℚ) (vt : VehicleType) :
    calculateEstimatedFare p p vt = (pricing vt).1 := by
  unfold calculateEstimatedFare
  rw [calculateDistance_self]
  simp

/-- C5: for every vehicle type and every pair of coordinates,
`calculateEstimatedFare` is `round (base + perKm * haversineKm)` with the
pricing table CAR:50/12, BIKE:20/6, AUTO:30/8, E_RICKSHAW:25/7,
ELECTRIC_SCOOTER:15/5 (`calculateDistance` being the haversine formula with
Earth radius 6371 km); with identical pickup and dropoff the distance term
is 0 and the fare equals the base fare — for CAR exactly 50. -/
theorem calculateEstimatedFare_spec (p q : ℚ × ℚ) :
    (calculateEstimatedFare p q .CAR =
       round ((50 : ℝ) + 12 * calculateDistance p q)
   ∧ calculateEstimatedFare p q .BIKE =
       round ((20 : ℝ) + 6 * calculateDistance p q)
   ∧ calculateEstimatedFare p q .AUTO =
       round ((30 : ℝ) + 8 * calculateDistance p q)
   ∧ calculateEstimatedFare p q .E_RICKSHAW =
       round ((25 : ℝ) + 7 * calculateDistance p q)
   ∧ calculateEstimatedFare p q .ELECTRIC_SCOOTER =
       round ((15 : ℝ) + 5 * calculateDistance p q))
  ∧ calculateDistance p p = 0
  ∧ (∀ vt, calculateEstimatedFare p p vt = (pricing vt).1)
  ∧ calculateEstimatedFare p p .CAR = 50 := by
  refine ⟨⟨?_, ?_, ?_, ?_, ?_⟩, calculateDistance_self p,
    fun vt => calculateEstimatedFare_samePoint p vt, ?_⟩
  · unfold calculateEstimatedFare pricing
    norm_num [mul_comm]
  · unfold calculateEstimatedFare pricing
    norm_num [mul_comm]
  · unfold calculateEstimatedFare pricing
    norm_num [mul_comm]
  · unfold calculateEstimatedFare pricing
    norm_num [mul_comm]
  · unfold calculateEstimatedFare pricing
    norm_num [mul_comm]
  · rw [calculateEstimatedFare_samePoint]
    rfl

end UberClone
